import Mathlib

/-!
Shallow embedding of the MCP client (src/index.ts and src/index_auth.ts):
the tool-augmented conversation loop (`processQuery`), the interactive shell
(`chatLoop` / `main`), server connection (`connectToLocalServer`,
`connectToRemoteServer`) and configuration loading (`loadConfig`).

External effects are modelled as explicit oracles: the Bedrock model gateway
is a function giving the first response and the stream of follow-up
responses; the MCP tool server is a function from (name, arguments) to a
result; the filesystem is a function from path to read outcome; the
interactive terminal is a list of input lines plus a prompt-response
function. Machine state that the TypeScript mutates (the `messages`
transcript, the `finalText` buffer, ...) is threaded explicitly through a
state record, and a thrown exception is an `error` field that stops all
further processing, or an `Except.error` return.
-/

namespace MCPClient

/-- JS `String.prototype.endsWith`: suffix test on the character sequence. -/
def jsEndsWith (s suffix : String) : Bool :=
  suffix.data.isSuffixOf s.data

/-- JS `String.prototype.toLowerCase` (ASCII case mapping, which is all the
client compares against). -/
def jsToLowerCase (s : String) : String :=
  String.mk (s.data.map Char.toLower)

/-- Serialized JSON value (the program never inspects argument objects, it
only forwards them and renders them with `JSON.stringify`), so we model a
JSON value by its serialization. -/
abbrev Json := String

/-- `JSON.stringify(toolArgs)` as it appears inside a template literal:
an `undefined` argument object renders as the string `undefined`. -/
def stringifyArgs : Option Json → String
  | none => "undefined"
  | some j => j

/-- One content block of a parsed Bedrock model response. The TypeScript
only distinguishes `type === "text"` and `type === "tool_use"`; any other
block type falls through both branches and is ignored. -/
inductive ContentBlock
  | text (value : String)
  | toolUse (name : String) (input : Option Json) (id : String)
  | other
deriving DecidableEq

/-- A parsed model response: the `content` array of blocks. -/
structure ModelResponse where
  content : List ContentBlock
deriving DecidableEq

/-- Message roles used by the client. -/
inductive Role
  | user
  | assistant
deriving DecidableEq

/-- A content item inside an array-valued message `content`. -/
inductive ContentItem
  | toolUse (name : String) (input : Option Json) (id : String)
  | toolResult (tool_use_id : String) (content : String)
deriving DecidableEq

/-- Message content: either a bare string or an array of items. -/
inductive MsgContent
  | str (s : String)
  | items (l : List ContentItem)
deriving DecidableEq

/-- One transcript entry (`MessageParam`). -/
structure MessageParam where
  role : Role
  content : MsgContent
deriving DecidableEq

/-- Result returned by `mcp.callTool` (the client only forwards its
`content` field into the tool-result message). -/
structure ToolResult where
  content : String
deriving DecidableEq

/-- Oracle for the external collaborators of `processQuery`: the initial
model response, the response returned by the k-th follow-up
`invokeClaudeModel` call (0-indexed), and the tool server's answer to a
`callTool` request. -/
structure Oracle where
  firstResponse : ModelResponse
  followUp : Nat → ModelResponse
  callTool : String → Option Json → ToolResult

/-- The rendered text `[Calling tool ... with args ...]` pushed onto
`finalText` for each tool_use block. -/
def renderToolCall (toolName : String) (toolArgs : Option Json) : String :=
  "[Calling tool " ++ toolName ++ " with args " ++ stringifyArgs toolArgs ++ "]"

/-- The mutable state of one `processQuery` run: the `messages` transcript,
the `finalText` buffer, the `toolResults` list, plus observation fields:
the tool calls performed (name, arguments, in order), the transcript passed
to each follow-up model call (in order), and the pending thrown exception
(`none` = no exception). -/
structure PQState where
  messages : List MessageParam
  finalText : List String
  toolResults : List ToolResult
  toolCalls : List (String × Option Json)
  followUpTranscripts : List (List MessageParam)
  error : Option String
deriving DecidableEq

/-- What `if (followUpResponse.content[0].type === "text")
finalText.push(followUpResponse.content[0].text)` contributes to
`finalText`: the first block's text when it is a text block, nothing
otherwise (including the crashing empty case, where the push is never
reached). -/
def firstTextOf (r : ModelResponse) : List String :=
  match r.content with
  | ContentBlock.text t :: _ => [t]
  | _ => []

/-- The unguarded `followUpResponse.content[0]` access: on an empty
`content` array, `content[0]` is `undefined` and reading `.type` throws a
`TypeError`; otherwise no exception is raised here. -/
def indexError (r : ModelResponse) (prev : Option String) : Option String :=
  match r.content with
  | [] => some "TypeError: cannot read properties of undefined"
  | _ :: _ => prev

/-- The body of `for (const content of response.content)` for one block. -/
def processBlock (o : Oracle) (st : PQState) (c : ContentBlock) : PQState :=
  match c with
  | ContentBlock.text t =>
      { st with finalText := st.finalText ++ [t] }
  | ContentBlock.toolUse toolName toolArgs toolId =>
      let result := o.callTool toolName toolArgs
      let msgs := st.messages ++
        [ ⟨Role.assistant, MsgContent.items [ContentItem.toolUse toolName toolArgs toolId]⟩,
          ⟨Role.user, MsgContent.items [ContentItem.toolResult toolId result.content]⟩ ]
      let followUpResponse := o.followUp st.followUpTranscripts.length
      { messages := msgs
        finalText := st.finalText ++ [renderToolCall toolName toolArgs] ++
          firstTextOf followUpResponse
        toolResults := st.toolResults ++ [result]
        toolCalls := st.toolCalls ++ [(toolName, toolArgs)]
        followUpTranscripts := st.followUpTranscripts ++ [msgs]
        error := indexError followUpResponse st.error }
  | ContentBlock.other => st

/-- The loop over `response.content`; a thrown exception (`error` set)
aborts all further iterations. -/
def runBlocks (o : Oracle) : PQState → List ContentBlock → PQState
  | st, [] => st
  | st, c :: cs =>
      match st.error with
      | some _ => st
      | none => runBlocks o (processBlock o st c) cs

/-- Initial state: `messages` seeded with the single user message holding
the raw query, empty buffers. -/
def initState (query : String) : PQState :=
  { messages := [⟨Role.user, MsgContent.str query⟩]
    finalText := []
    toolResults := []
    toolCalls := []
    followUpTranscripts := []
    error := none }

/-- `processQuery`: the whole run over the initial model response. -/
def processQuery (o : Oracle) (query : String) : PQState :=
  runBlocks o (initState query) o.firstResponse.content

/-- The value `processQuery` returns: `finalText.join("\n")`, or `none`
when the run threw. -/
def queryAnswer (st : PQState) : Option String :=
  match st.error with
  | some _ => none
  | none => some (String.intercalate "\n" st.finalText)

/-- Specification-side: the values of the text blocks of a response, in
response order. -/
def textValues : List ContentBlock → List String
  | [] => []
  | ContentBlock.text t :: cs => t :: textValues cs
  | ContentBlock.toolUse _ _ _ :: cs => textValues cs
  | ContentBlock.other :: cs => textValues cs

/-- Specification-side: the (name, arguments) of the tool-request blocks of
a response, in the order the model emitted them. -/
def toolRequests : List ContentBlock → List (String × Option Json)
  | [] => []
  | ContentBlock.toolUse n a _ :: cs => (n, a) :: toolRequests cs
  | ContentBlock.text _ :: cs => toolRequests cs
  | ContentBlock.other :: cs => toolRequests cs

/-- Specification-side rendering of the engine's output buffer, written
from the spec's ordering rule: blocks are processed strictly in emitted
order; a text block contributes its value; the k-th tool-request block (in
emitted order, 0-indexed by `k` across the whole response) contributes its
rendered call text followed by at most the first text block of the k-th
follow-up response, before the next block is processed. -/
def expectedFinalText (o : Oracle) : Nat → List ContentBlock → List String
  | _, [] => []
  | k, ContentBlock.text t :: cs => t :: expectedFinalText o k cs
  | k, ContentBlock.toolUse n a _ :: cs =>
      renderToolCall n a :: (firstTextOf (o.followUp k) ++ expectedFinalText o (k + 1) cs)
  | k, ContentBlock.other :: cs => expectedFinalText o k cs

/-- Specification-side: one tool exchange as it appears in the transcript —
a request (name, arguments, correlation id) and the result payload appended
for it. -/
structure ToolExchange where
  name : String
  args : Option Json
  id : String
  result : String
deriving DecidableEq

/-- The two transcript messages of one tool exchange: the assistant
tool-use message and, immediately after it, the user tool-result message
carrying the same correlation id (`e.id` in both). -/
def exchangeMsgs : List ToolExchange → List MessageParam
  | [] => []
  | e :: rest =>
      ⟨Role.assistant, MsgContent.items [ContentItem.toolUse e.name e.args e.id]⟩ ::
      ⟨Role.user, MsgContent.items [ContentItem.toolResult e.id e.result]⟩ ::
      exchangeMsgs rest

/-- The stdio transport parameters handed to `StdioClientTransport`:
launcher command, argument list, and (for the remote-bridge path) an
explicit environment. Opening a transport is the only way a channel is
opened, so "no channel opened" = no `StdioTransport` value produced. -/
structure StdioTransport where
  command : String
  args : List String
  env : Option (List (String × String)) := none
deriving DecidableEq

/-- `connectToLocalServer`: extension dispatch. `platform` is
`process.platform` and `execPath` is `process.execPath` (the Node binary
running the client). Returns the transport it would open, or the thrown
error message. -/
def connectToLocalServer (platform execPath serverScriptPath : String) :
    Except String StdioTransport :=
  let isJs := jsEndsWith serverScriptPath ".js"
  let isPy := jsEndsWith serverScriptPath ".py"
  if !isJs && !isPy then
    Except.error "Server script must be a .js or .py file"
  else
    let command :=
      if isPy then (if platform == "win32" then "python" else "python3") else execPath
    Except.ok { command := command, args := [serverScriptPath] }

/-- A named server entry of the configuration file (index_auth.ts shape:
all three fields optional). -/
structure MCPServerConfig where
  command : Option String := none
  args : Option (List String) := none
  url : Option String := none
deriving DecidableEq

/-- The configuration file: the `mcpServers` map, as an association list. -/
structure MCPConfig where
  mcpServers : List (String × MCPServerConfig)
deriving DecidableEq

/-- JS truthiness of an optional string field: a missing field
(`undefined`) and the empty string are both falsy. -/
def truthyStr : Option String → Bool
  | none => false
  | some s => !(s == "")

/-- Outcome of reading one candidate config path: the path does not exist
(`existsSync` false), reading or parsing threw (caught, warned, and the
loop continues), or the file parsed to a configuration. -/
inductive FileRead
  | absent
  | unreadable
  | content (cfg : MCPConfig)

/-- Node `path.join` of two segments (normalization not modelled; the
client only joins plain relative names onto absolute prefixes). -/
def pathJoin (a b : String) : String := a ++ "/" ++ b

/-- The three default candidate paths, in consultation order. `home` is the
resolved `process.env.HOME || process.env.USERPROFILE || ''`. -/
def defaultPaths (cwd home : String) : List String :=
  [ pathJoin cwd ".mcp.json",
    pathJoin cwd "mcp-config.json",
    pathJoin (pathJoin home ".mcp") "config.json" ]

/-- The `for (const p of paths)` loop of `loadConfig`: first path that
exists and parses wins; a read/parse failure is caught and the next path is
tried; if no path yields a config, the default `{ mcpServers: {} }` is
returned. -/
def loadConfigFrom (fs : String → FileRead) : List String → MCPConfig
  | [] => { mcpServers := [] }
  | p :: rest =>
      match fs p with
      | FileRead.content cfg => cfg
      | FileRead.absent => loadConfigFrom fs rest
      | FileRead.unreadable => loadConfigFrom fs rest

/-- `loadConfig`: an explicit `configPath` replaces the default candidate
list entirely. -/
def loadConfig (fs : String → FileRead) (cwd home : String)
    (configPath : Option String) : MCPConfig :=
  loadConfigFrom fs
    (match configPath with
     | some p => [p]
     | none => defaultPaths cwd home)

/-- Result of a successful `connectToRemoteServer`: the transport it opens
and the credential prompts it issued, in order. -/
structure RemoteConnectResult where
  transport : StdioTransport
  promptsIssued : List String
deriving DecidableEq

/-- `connectToRemoteServer` (index_auth.ts), after the configuration has
been loaded. `baseEnv` is `process.env`; `promptResponse` gives the line
the user would answer to a given prompt (`promptForInput`). JS truthiness
governs the branches: `if (serverConfig.url)` and
`serverConfig.command && serverConfig.args` (an empty string is falsy, an
array — even empty — is truthy), and `username || prompt` likewise. -/
def connectToRemoteServer (baseEnv : List (String × String))
    (promptResponse : String → String) (config : MCPConfig)
    (serverName : String) (username password : Option String) :
    Except String RemoteConnectResult :=
  match config.mcpServers.lookup serverName with
  | none => Except.error ("Server \"" ++ serverName ++ "\" not found in configuration")
  | some serverConfig =>
      if truthyStr serverConfig.url then
        let githubUsername :=
          if truthyStr username then username.getD "" else promptResponse "GitHub Username: "
        let githubPassword :=
          if truthyStr password then password.getD "" else promptResponse "GitHub Password/Token: "
        Except.ok
          { transport :=
              { command := "npx"
                args := ["mcp-remote", serverConfig.url.getD ""]
                env := some (baseEnv ++
                  [("GITHUB_USERNAME", githubUsername), ("GITHUB_TOKEN", githubPassword)]) }
            promptsIssued :=
              (if truthyStr username then [] else ["GitHub Username: "]) ++
              (if truthyStr password then [] else ["GitHub Password/Token: "]) }
      else if truthyStr serverConfig.command && serverConfig.args.isSome then
        Except.ok
          { transport :=
              { command := serverConfig.command.getD ""
                args := serverConfig.args.getD []
                env := none }
            promptsIssued := [] }
      else
        Except.error "Invalid server configuration: missing url or command/args"

/-- How one `chatLoop` run ended: `quit` typed (break), the input script
ran out while a prompt was pending, or `processQuery` threw (the exception
leaves the loop — there is no catch inside it). -/
inductive LoopOutcome
  | quit
  | inputClosed
  | errored (e : String)
deriving DecidableEq

/-- Observables of one `chatLoop` run: the responses printed (in order),
the number of `"Query: "` prompts displayed, the lines forwarded to
`processQuery` (in order), and how the run ended. -/
structure LoopResult where
  printed : List String
  prompts : Nat
  engineCalls : List String
  outcome : LoopOutcome
deriving DecidableEq

/-- `chatLoop` over a finite script of input lines. The engine
(`processQuery`) either returns an answer or throws. Each iteration
displays one prompt, so an exhausted script leaves one pending prompt and
an exception or a `quit` leaves none beyond the prompt its line was read
at. -/
def chatLoop (engine : String → Except String String) :
    List String → LoopResult
  | [] =>
      { printed := [], prompts := 1, engineCalls := [], outcome := LoopOutcome.inputClosed }
  | message :: rest =>
      if jsToLowerCase message == "quit" then
        { printed := [], prompts := 1, engineCalls := [], outcome := LoopOutcome.quit }
      else
        match engine message with
        | Except.error e =>
            { printed := [], prompts := 1, engineCalls := [message],
              outcome := LoopOutcome.errored e }
        | Except.ok response =>
            let r := chatLoop engine rest
            { printed := ("\n" ++ response) :: r.printed
              prompts := 1 + r.prompts
              engineCalls := message :: r.engineCalls
              outcome := r.outcome }

/-- The part of `main` (index_auth.ts) around `chatLoop`: an exception
escaping the loop is caught by `main`'s catch, logged as `Error: ...`, and
then cleanup runs and the process exits. The second component is the
message `main` logs (`none` when no exception escaped); in every case the
function returning models the process exiting. -/
def mainSession (engine : String → Except String String)
    (lines : List String) : LoopResult × Option String :=
  let r := chatLoop engine lines
  match r.outcome with
  | LoopOutcome.errored e => (r, some ("Error: " ++ e))
  | _ => (r, none)

/-! ### Concrete fixtures used by witnesses and counterexamples -/

/-- A model that answers with two text blocks and is never asked again. -/
def textOracle : Oracle :=
  { firstResponse := { content := [ContentBlock.text "Hello", ContentBlock.text "world"] }
    followUp := fun _ => { content := [ContentBlock.text "unused"] }
    callTool := fun _ _ => { content := "unused" } }

/-- A model that requests one tool call and then answers with text. -/
def singleToolOracle : Oracle :=
  { firstResponse := { content := [ContentBlock.toolUse "search" (some "argsForSearch") "toolu_01"] }
    followUp := fun _ => { content := [ContentBlock.text "done"] }
    callTool := fun _ _ => { content := "result-payload" } }

/-- A model whose follow-up response has an empty `content` array. -/
def emptyFollowUpOracle : Oracle :=
  { firstResponse := { content := [ContentBlock.toolUse "search" none "toolu_02"] }
    followUp := fun _ => { content := [] }
    callTool := fun _ _ => { content := "r" } }

/-- An engine that fails (as a thrown gateway error) on the query
`"boom"` and answers every other query. -/
def failingEngine : String → Except String String :=
  fun q =>
    if q == "boom" then Except.error "Failed to invoke Bedrock model: timeout"
    else Except.ok ("answer to " ++ q)

/-- A configuration whose only entry has `url` present but equal to the
empty string, and no `command`/`args`. -/
def emptyUrlEntryConfig : MCPConfig :=
  { mcpServers := [("docs", { url := some "", command := none, args := none })] }

/-! ### Lemmas about the conversation engine -/

/-- Equation: `runBlocks` on a cons in the no-exception state. -/
lemma runBlocks_cons (o : Oracle) (st : PQState) (c : ContentBlock)
    (cs : List ContentBlock) (he : st.error = none) :
    runBlocks o st (c :: cs) = runBlocks o (processBlock o st c) cs := by
  simp [runBlocks, he]

/-- Running a list of text-only blocks just appends their values to
`finalText`. -/
lemma runBlocks_textOnly (o : Oracle) :
    ∀ (cs : List ContentBlock) (st : PQState), st.error = none →
      (∀ c ∈ cs, ∃ t, c = ContentBlock.text t) →
      runBlocks o st cs = { st with finalText := st.finalText ++ textValues cs } := by
  intro cs
  induction cs with
  | nil =>
      intro st he _
      simp [runBlocks, textValues]
  | cons c cs ih =>
      intro st he hall
      obtain ⟨t, rfl⟩ := hall c (List.mem_cons_self c cs)
      rw [runBlocks_cons o st _ cs he]
      rw [ih (processBlock o st (ContentBlock.text t))
            (by simp [processBlock, he])
            (fun c' hc' => hall c' (List.mem_cons_of_mem _ hc'))]
      simp [processBlock, textValues]

/-- Claim C1: for every model response consisting only of text blocks,
`processQuery` terminates after the single initial model call (no follow-up
model calls), performs no tool invocation, and returns exactly the text
blocks' values joined by newlines in response order. -/
theorem processQuery_text_only (o : Oracle) (q : String)
    (h : ∀ c ∈ o.firstResponse.content, ∃ t, c = ContentBlock.text t) :
    (processQuery o q).toolCalls = [] ∧
    (processQuery o q).followUpTranscripts = [] ∧
    queryAnswer (processQuery o q) =
      some (String.intercalate "\n" (textValues o.firstResponse.content)) := by
  unfold processQuery
  rw [runBlocks_textOnly o o.firstResponse.content (initState q) rfl h]
  simp [initState, queryAnswer]

/-- Witness for C1 at a concrete two-text-block response. -/
theorem processQuery_text_only_witness :
    (processQuery textOracle "hi").toolCalls = [] ∧
    (processQuery textOracle "hi").followUpTranscripts = [] ∧
    queryAnswer (processQuery textOracle "hi") = some "Hello\nworld" :=
  processQuery_text_only textOracle "hi"
    (by
      intro c hc
      simp [textOracle] at hc
      rcases hc with h | h
      · exact ⟨"Hello", h⟩
      · exact ⟨"world", h⟩)

/-- Claim C2: a response with exactly one tool-request block causes exactly
one tool call with the declared name and arguments, appends exactly two
transcript messages (assistant tool-use, then user tool-result with the
same correlation id), and issues exactly one follow-up model call carrying
the updated three-message transcript. -/
theorem processQuery_single_tool (o : Oracle) (q n : String) (a : Option Json)
    (i : String) (h : o.firstResponse.content = [ContentBlock.toolUse n a i]) :
    (processQuery o q).toolCalls = [(n, a)] ∧
    (processQuery o q).messages =
      [ ⟨Role.user, MsgContent.str q⟩,
        ⟨Role.assistant, MsgContent.items [ContentItem.toolUse n a i]⟩,
        ⟨Role.user, MsgContent.items [ContentItem.toolResult i (o.callTool n a).content]⟩ ] ∧
    (processQuery o q).followUpTranscripts =
      [ [ ⟨Role.user, MsgContent.str q⟩,
          ⟨Role.assistant, MsgContent.items [ContentItem.toolUse n a i]⟩,
          ⟨Role.user, MsgContent.items [ContentItem.toolResult i (o.callTool n a).content]⟩ ] ] := by
  unfold processQuery
  rw [h]
  simp [runBlocks, processBlock, initState]

/-- Witness for C2 at a concrete single-tool-request response. -/
theorem processQuery_single_tool_witness :
    (processQuery singleToolOracle "find x").toolCalls = [("search", some "argsForSearch")] ∧
    (processQuery singleToolOracle "find x").messages =
      [ ⟨Role.user, MsgContent.str "find x"⟩,
        ⟨Role.assistant, MsgContent.items
          [ContentItem.toolUse "search" (some "argsForSearch") "toolu_01"]⟩,
        ⟨Role.user, MsgContent.items
          [ContentItem.toolResult "toolu_01" "result-payload"]⟩ ] ∧
    (processQuery singleToolOracle "find x").followUpTranscripts =
      [ [ ⟨Role.user, MsgContent.str "find x"⟩,
          ⟨Role.assistant, MsgContent.items
            [ContentItem.toolUse "search" (some "argsForSearch") "toolu_01"]⟩,
          ⟨Role.user, MsgContent.items
            [ContentItem.toolResult "toolu_01" "result-payload"]⟩ ] ] :=
  processQuery_single_tool singleToolOracle "find x" "search" (some "argsForSearch")
    "toolu_01" rfl

/-- `exchangeMsgs` distributes over list append. -/
lemma exchangeMsgs_append (xs ys : List ToolExchange) :
    exchangeMsgs (xs ++ ys) = exchangeMsgs xs ++ exchangeMsgs ys := by
  induction xs with
  | nil => rfl
  | cons e xs ih => simp [exchangeMsgs, ih]

/-- The transcript produced by running any block list keeps the shape
"initial message, then complete request/result pairs sharing their
correlation ids". -/
lemma runBlocks_messages_shape (o : Oracle) (m0 : MessageParam) :
    ∀ (cs : List ContentBlock) (st : PQState) (ps : List ToolExchange),
      st.messages = m0 :: exchangeMsgs ps →
      ∃ qs, (runBlocks o st cs).messages = m0 :: exchangeMsgs (ps ++ qs) := by
  intro cs
  induction cs with
  | nil =>
      intro st ps h
      exact ⟨[], by simpa [runBlocks] using h⟩
  | cons c cs ih =>
      intro st ps h
      cases he : st.error with
      | some e =>
          refine ⟨[], ?_⟩
          have : runBlocks o st (c :: cs) = st := by simp [runBlocks, he]
          rw [this, h]
          simp
      | none =>
          rw [runBlocks_cons o st c cs he]
          cases c with
          | text t => exact ih _ ps (by simpa [processBlock] using h)
          | other => exact ih _ ps (by simpa [processBlock] using h)
          | toolUse n a i =>
              obtain ⟨qs, hq⟩ :=
                ih (processBlock o st (ContentBlock.toolUse n a i))
                  (ps ++ [⟨n, a, i, (o.callTool n a).content⟩])
                  (by simp [processBlock, h, exchangeMsgs_append, exchangeMsgs])
              exact ⟨⟨n, a, i, (o.callTool n a).content⟩ :: qs,
                by simpa [List.append_assoc] using hq⟩

/-- Claim C3: the transcript built by `processQuery` is the seeded user
message followed by complete tool exchanges, where each user tool-result
message carries exactly the correlation id of the assistant
tool-invocation-request message immediately before it (both are `e.id` of
the same exchange `e`): correlation ids round-trip unchanged from request
to result. -/
theorem processQuery_correlation_ids (o : Oracle) (q : String) :
    ∃ ps : List ToolExchange,
      (processQuery o q).messages =
        ⟨Role.user, MsgContent.str q⟩ :: exchangeMsgs ps := by
  obtain ⟨qs, hq⟩ :=
    runBlocks_messages_shape o ⟨Role.user, MsgContent.str q⟩
      o.firstResponse.content (initState q) [] (by simp [initState, exchangeMsgs])
  exact ⟨qs, by simpa [processQuery] using hq⟩

/-- `indexError` is the identity on runs whose follow-up response is
non-empty. -/
lemma indexError_of_nonempty (r : ModelResponse) (prev : Option String)
    (h : r.content ≠ []) : indexError r prev = prev := by
  unfold indexError
  cases hc : r.content with
  | nil => exact absurd hc h
  | cons b bs => rfl

/-- Main run lemma: starting from any non-exceptional state, running a
block list performs the emitted tool requests in order, issues one
follow-up call per tool request, and extends `finalText` exactly as the
spec's ordering rule describes — provided every follow-up response is
non-empty. -/
lemma runBlocks_run (o : Oracle) (hne : ∀ j, (o.followUp j).content ≠ []) :
    ∀ (cs : List ContentBlock) (st : PQState), st.error = none →
      (runBlocks o st cs).error = none ∧
      (runBlocks o st cs).toolCalls = st.toolCalls ++ toolRequests cs ∧
      (runBlocks o st cs).followUpTranscripts.length =
        st.followUpTranscripts.length + (toolRequests cs).length ∧
      (runBlocks o st cs).finalText =
        st.finalText ++ expectedFinalText o st.followUpTranscripts.length cs := by
  intro cs
  induction cs with
  | nil =>
      intro st he
      simp [runBlocks, toolRequests, expectedFinalText, he]
  | cons c cs ih =>
      intro st he
      rw [runBlocks_cons o st c cs he]
      cases c with
      | text t =>
          have het : (processBlock o st (ContentBlock.text t)).error = none := by
            simp [processBlock, he]
          obtain ⟨h1, h2, h3, h4⟩ := ih _ het
          refine ⟨h1, ?_, ?_, ?_⟩
          · rw [h2]; simp [processBlock, toolRequests]
          · rw [h3]; simp [processBlock, toolRequests]
          · rw [h4]; simp [processBlock, expectedFinalText]
      | other =>
          have heo : (processBlock o st ContentBlock.other).error = none := by
            simp [processBlock, he]
          obtain ⟨h1, h2, h3, h4⟩ := ih _ heo
          refine ⟨h1, ?_, ?_, ?_⟩
          · rw [h2]; simp [processBlock, toolRequests]
          · rw [h3]; simp [processBlock, toolRequests]
          · rw [h4]; simp [processBlock, expectedFinalText]
      | toolUse n a i =>
          have herr : (processBlock o st (ContentBlock.toolUse n a i)).error = none := by
            simp [processBlock,
              indexError_of_nonempty _ _ (hne st.followUpTranscripts.length), he]
          obtain ⟨h1, h2, h3, h4⟩ := ih _ herr
          refine ⟨h1, ?_, ?_, ?_⟩
          · rw [h2]; simp [processBlock, toolRequests]
          · rw [h3]; simp [processBlock, toolRequests]
            omega
          · rw [h4]; simp [processBlock, expectedFinalText]

/-- Claim C4: for any model response (in particular one with N ≥ 1
tool-request blocks), the blocks are processed strictly in emitted order,
one follow-up model call is issued per tool-request block (N in total), and
the output buffer records, per tool request, its rendered call text
followed by at most the first text block of its follow-up response, before
the next block of the original response is processed — provided every
follow-up response is non-empty. -/
theorem processQuery_multi_tool (o : Oracle) (q : String)
    (hne : ∀ j, (o.followUp j).content ≠ []) :
    (processQuery o q).toolCalls = toolRequests o.firstResponse.content ∧
    (processQuery o q).followUpTranscripts.length =
      (toolRequests o.firstResponse.content).length ∧
    (processQuery o q).finalText = expectedFinalText o 0 o.firstResponse.content ∧
    (processQuery o q).error = none := by
  obtain ⟨h1, h2, h3, h4⟩ :=
    runBlocks_run o hne o.firstResponse.content (initState q) rfl
  refine ⟨?_, ?_, ?_, h1⟩
  · simpa [processQuery, initState] using h2
  · simpa [processQuery, initState] using h3
  · simpa [processQuery, initState] using h4

/-- Witness for C4: a concrete response holding two tool-request blocks
with a text block between them. -/
theorem processQuery_multi_tool_witness :
    (processQuery
        { firstResponse :=
            { content :=
                [ ContentBlock.toolUse "alpha" none "id_a",
                  ContentBlock.text "between",
                  ContentBlock.toolUse "beta" (some "betaArgs") "id_b" ] }
          followUp := fun _ => { content := [ContentBlock.text "fu"] }
          callTool := fun _ _ => { content := "res" } } "go").toolCalls =
      [("alpha", none), ("beta", some "betaArgs")] :=
  (processQuery_multi_tool
    { firstResponse :=
        { content :=
            [ ContentBlock.toolUse "alpha" none "id_a",
              ContentBlock.text "between",
              ContentBlock.toolUse "beta" (some "betaArgs") "id_b" ] }
      followUp := fun _ => { content := [ContentBlock.text "fu"] }
      callTool := fun _ _ => { content := "res" } } "go"
    (by intro j; simp)).1

/-- Claim C10: `processQuery` never raises any exception at the unguarded
`followUpResponse.content[0]` access when every follow-up response has a
non-empty content list; and there is an input — a follow-up response with
an empty content list — on which the indexing is out of bounds and the run
throws. -/
theorem processQuery_followUp_indexing :
    (∀ (o : Oracle) (q : String), (∀ j, (o.followUp j).content ≠ []) →
        (processQuery o q).error = none) ∧
    (∃ (o : Oracle) (q : String),
        (processQuery o q).error =
          some "TypeError: cannot read properties of undefined") := by
  constructor
  · intro o q hne
    exact (runBlocks_run o hne o.firstResponse.content (initState q) rfl).1
  · exact ⟨emptyFollowUpOracle, "q", rfl⟩

/-- Witness for C10 at a concrete oracle with non-empty follow-ups. -/
theorem processQuery_followUp_indexing_witness :
    (processQuery singleToolOracle "find x").error = none :=
  processQuery_followUp_indexing.1 singleToolOracle "find x"
    (by intro j; simp [singleToolOracle])

/-! ### Connector and configuration claims -/

/-- Claim C6: a local script path ending in neither of the two recognized
extensions is rejected with the thrown error and no transport is opened; a
`.py` path launches `python`/`python3` (by platform) and a `.js` path
launches the running Node binary (`process.execPath`), each on the script
path alone. -/
theorem connectToLocalServer_extension_check (platform execPath p : String) :
    (jsEndsWith p ".js" = false → jsEndsWith p ".py" = false →
        connectToLocalServer platform execPath p =
          Except.error "Server script must be a .js or .py file") ∧
    (jsEndsWith p ".py" = true →
        connectToLocalServer platform execPath p =
          Except.ok { command := if platform == "win32" then "python" else "python3",
                      args := [p], env := none }) ∧
    (jsEndsWith p ".js" = true → jsEndsWith p ".py" = false →
        connectToLocalServer platform execPath p =
          Except.ok { command := execPath, args := [p], env := none }) := by
  refine ⟨?_, ?_, ?_⟩
  · intro h1 h2
    simp [connectToLocalServer, h1, h2]
  · intro h1
    simp [connectToLocalServer, h1]
  · intro h1 h2
    simp [connectToLocalServer, h1, h2]

/-- Witness for C6: a rejected `.sh` path, an accepted `.py` path and an
accepted `.js` path. -/
theorem connectToLocalServer_extension_check_witness :
    connectToLocalServer "linux" "/usr/bin/node" "run.sh" =
      Except.error "Server script must be a .js or .py file" ∧
    connectToLocalServer "linux" "/usr/bin/node" "server.py" =
      Except.ok { command := "python3", args := ["server.py"], env := none } ∧
    connectToLocalServer "linux" "/usr/bin/node" "tool.js" =
      Except.ok { command := "/usr/bin/node", args := ["tool.js"], env := none } :=
  ⟨(connectToLocalServer_extension_check "linux" "/usr/bin/node" "run.sh").1
      (by decide) (by decide),
   (connectToLocalServer_extension_check "linux" "/usr/bin/node" "server.py").2.1
      (by decide),
   (connectToLocalServer_extension_check "linux" "/usr/bin/node" "tool.js").2.2
      (by decide) (by decide)⟩

/-- Counterexample to C7 as stated: an entry whose `url` field is present
(`some ""`) but has no `command`/`args` does not connect — JS truthiness
(`if (serverConfig.url)`) treats the empty string as absent, so the call
falls through to the configuration error. -/
theorem connectToRemoteServer_url_present_cex :
    (emptyUrlEntryConfig.mcpServers.lookup "docs").map (fun e => e.url.isSome) =
      some true ∧
    connectToRemoteServer [] (fun _ => "typed") emptyUrlEntryConfig "docs" none none =
      Except.error "Invalid server configuration: missing url or command/args" := by
  exact ⟨by decide, rfl⟩

/-- Claim C7 (amended for JS truthiness): for a named entry found in the
configuration — an entry with neither a truthy (nonempty) `url` nor a
truthy `command` plus `args` fails with the configuration error and opens
no transport; an entry with a truthy `url` always connects (no
`command`/`args` required); an entry with a truthy `command` and `args`
(and no truthy `url`) is launched verbatim with no credential prompting. -/
theorem connectToRemoteServer_config_paths (baseEnv : List (String × String))
    (promptResponse : String → String) (config : MCPConfig) (serverName : String)
    (sc : MCPServerConfig) (username password : Option String)
    (hlookup : config.mcpServers.lookup serverName = some sc) :
    (truthyStr sc.url = false → (truthyStr sc.command && sc.args.isSome) = false →
        connectToRemoteServer baseEnv promptResponse config serverName username password =
          Except.error "Invalid server configuration: missing url or command/args") ∧
    (truthyStr sc.url = true →
        ∃ r, connectToRemoteServer baseEnv promptResponse config serverName username
              password = Except.ok r ∧
          r.transport.command = "npx" ∧
          r.transport.args = ["mcp-remote", sc.url.getD ""]) ∧
    (truthyStr sc.url = false → truthyStr sc.command = true → sc.args.isSome = true →
        connectToRemoteServer baseEnv promptResponse config serverName username password =
          Except.ok { transport := { command := sc.command.getD "",
                                     args := sc.args.getD [], env := none },
                      promptsIssued := [] }) := by
  refine ⟨?_, ?_, ?_⟩
  · intro h1 h2
    simp [connectToRemoteServer, hlookup, h1, h2]
  · intro h1
    refine ⟨{ transport :=
                { command := "npx",
                  args := ["mcp-remote", sc.url.getD ""],
                  env := some (baseEnv ++
                    [("GITHUB_USERNAME",
                        if truthyStr username then username.getD ""
                        else promptResponse "GitHub Username: "),
                     ("GITHUB_TOKEN",
                        if truthyStr password then password.getD ""
                        else promptResponse "GitHub Password/Token: ")]) },
              promptsIssued :=
                (if truthyStr username then [] else ["GitHub Username: "]) ++
                (if truthyStr password then [] else ["GitHub Password/Token: "]) },
      ?_, rfl, rfl⟩
    simp [connectToRemoteServer, hlookup, h1]
  · intro h1 h2 h3
    simp [connectToRemoteServer, hlookup, h1, h2, h3]

/-- The spec's direct-launch scenario entry:
`{"mcpServers":{"docs":{"command":"run-tool","args":["--port","8080"]}}}`. -/
def directEntryConfig : MCPConfig :=
  { mcpServers :=
      [("docs", { command := some "run-tool", args := some ["--port", "8080"],
                  url := none })] }

/-- Witness for C7 (amended): the spec scenario — `--remote docs` on the
direct-launch entry runs `run-tool --port 8080` verbatim with no
credential prompt. -/
theorem connectToRemoteServer_config_paths_witness :
    connectToRemoteServer [] (fun _ => "typed") directEntryConfig "docs" none none =
      Except.ok { transport := { command := "run-tool", args := ["--port", "8080"],
                                 env := none },
                  promptsIssued := [] } :=
  (connectToRemoteServer_config_paths [] (fun _ => "typed") directEntryConfig "docs"
      { command := some "run-tool", args := some ["--port", "8080"], url := none }
      none none rfl).2.2 rfl (by decide) rfl

/-- A candidate path that does not yield a configuration is skipped. -/
lemma loadConfigFrom_skip (fs : String → FileRead) (p : String) (rest : List String)
    (h : ∀ c, fs p ≠ FileRead.content c) :
    loadConfigFrom fs (p :: rest) = loadConfigFrom fs rest := by
  cases hp : fs p with
  | absent => simp [loadConfigFrom, hp]
  | unreadable => simp [loadConfigFrom, hp]
  | content cfg => exact absurd hp (h cfg)

/-- A candidate path that yields a configuration wins immediately. -/
lemma loadConfigFrom_hit (fs : String → FileRead) (p : String) (rest : List String)
    (cfg : MCPConfig) (h : fs p = FileRead.content cfg) :
    loadConfigFrom fs (p :: rest) = cfg := by
  simp [loadConfigFrom, h]

/-- Claim C8: with no explicit config path, the candidates are consulted in
the order current-directory `.mcp.json`, current-directory
`mcp-config.json`, per-user `~/.mcp/config.json`; the first that exists and
parses wins; if none does, the empty server map is returned, on which every
named server lookup fails. -/
theorem loadConfig_default_order (fs : String → FileRead) (cwd home : String) :
    (∀ cfg, fs (pathJoin cwd ".mcp.json") = FileRead.content cfg →
        loadConfig fs cwd home none = cfg) ∧
    (∀ cfg, (∀ c, fs (pathJoin cwd ".mcp.json") ≠ FileRead.content c) →
        fs (pathJoin cwd "mcp-config.json") = FileRead.content cfg →
        loadConfig fs cwd home none = cfg) ∧
    (∀ cfg, (∀ c, fs (pathJoin cwd ".mcp.json") ≠ FileRead.content c) →
        (∀ c, fs (pathJoin cwd "mcp-config.json") ≠ FileRead.content c) →
        fs (pathJoin (pathJoin home ".mcp") "config.json") = FileRead.content cfg →
        loadConfig fs cwd home none = cfg) ∧
    ((∀ p ∈ defaultPaths cwd home, ∀ c, fs p ≠ FileRead.content c) →
        loadConfig fs cwd home none = { mcpServers := [] }) ∧
    (∀ (serverName : String) (baseEnv : List (String × String))
        (promptResponse : String → String) (username password : Option String),
        connectToRemoteServer baseEnv promptResponse { mcpServers := [] } serverName
            username password =
          Except.error ("Server \"" ++ serverName ++ "\" not found in configuration")) := by
  refine ⟨?_, ?_, ?_, ?_, ?_⟩
  · intro cfg h1
    unfold loadConfig defaultPaths
    exact loadConfigFrom_hit fs _ _ cfg h1
  · intro cfg h1 h2
    unfold loadConfig defaultPaths
    rw [loadConfigFrom_skip fs _ _ h1]
    exact loadConfigFrom_hit fs _ _ cfg h2
  · intro cfg h1 h2 h3
    unfold loadConfig defaultPaths
    rw [loadConfigFrom_skip fs _ _ h1, loadConfigFrom_skip fs _ _ h2]
    exact loadConfigFrom_hit fs _ _ cfg h3
  · intro h
    unfold loadConfig defaultPaths
    rw [loadConfigFrom_skip fs _ _ (h _ (by simp [defaultPaths])),
        loadConfigFrom_skip fs _ _ (h _ (by simp [defaultPaths])),
        loadConfigFrom_skip fs _ _ (h _ (by simp [defaultPaths]))]
    rfl
  · intro serverName baseEnv promptResponse username password
    rfl

/-- Witness for C8: a filesystem where every path parses to the
direct-launch config; the first candidate wins. -/
theorem loadConfig_default_order_witness :
    loadConfig (fun _ => FileRead.content directEntryConfig) "/app" "/home/user" none =
      directEntryConfig :=
  (loadConfig_default_order (fun _ => FileRead.content directEntryConfig)
      "/app" "/home/user").1 directEntryConfig rfl

/-! ### Interactive loop claims -/

/-- Claim C9: a line equal to "quit" after lower-casing terminates the loop
without forwarding anything to the engine; any other line (on which the
engine returns) is forwarded and its answer is printed before the loop
continues with the remaining input. -/
theorem chatLoop_quit_or_forward (engine : String → Except String String)
    (line : String) (rest : List String) :
    ((jsToLowerCase line == "quit") = true →
        chatLoop engine (line :: rest) =
          { printed := [], prompts := 1, engineCalls := [],
            outcome := LoopOutcome.quit }) ∧
    ((jsToLowerCase line == "quit") = false → ∀ r, engine line = Except.ok r →
        chatLoop engine (line :: rest) =
          { printed := ("\n" ++ r) :: (chatLoop engine rest).printed
            prompts := 1 + (chatLoop engine rest).prompts
            engineCalls := line :: (chatLoop engine rest).engineCalls
            outcome := (chatLoop engine rest).outcome }) := by
  constructor
  · intro h
    simp [chatLoop, h]
  · intro h r hr
    simp [chatLoop, h, hr]

/-- Witness for C9: mixed-case `QuIt` exits without an engine call; an
ordinary line is answered and printed. -/
theorem chatLoop_quit_or_forward_witness :
    chatLoop failingEngine ["QuIt", "later"] =
      { printed := [], prompts := 1, engineCalls := [],
        outcome := LoopOutcome.quit } ∧
    chatLoop failingEngine ["hello"] =
      { printed := ["\nanswer to hello"], prompts := 2, engineCalls := ["hello"],
        outcome := LoopOutcome.inputClosed } :=
  ⟨(chatLoop_quit_or_forward failingEngine "QuIt" ["later"]).1 (by decide),
   (chatLoop_quit_or_forward failingEngine "hello" []).2 (by decide)
      "answer to hello" rfl⟩

/-- Counterexample to C5 as stated: with an engine that throws on the
second query, the loop neither re-displays the `Query: ` prompt nor
processes the third line — only two prompts are ever shown, the exception
escapes the loop, `main` logs it, and the process exits. The first query's
printed answer is unaffected. -/
theorem chatLoop_gateway_error_cex :
    chatLoop failingEngine ["first", "boom", "second"] =
      { printed := ["\nanswer to first"]
        prompts := 2
        engineCalls := ["first", "boom"]
        outcome := LoopOutcome.errored "Failed to invoke Bedrock model: timeout" } ∧
    (mainSession failingEngine ["first", "boom", "second"]).2 =
      some "Error: Failed to invoke Bedrock model: timeout" := by
  exact ⟨rfl, rfl⟩

/-- Claim C5 (amended): when the gateway throws during a query, the failure
is not retried and prior successful queries' printed results are
unaffected, but the loop does not continue — the exception propagates out
of `chatLoop` (no further prompt, no further engine call), `main` catches
and logs it, and the process exits. -/
theorem chatLoop_gateway_error_aborts (engine : String → Except String String)
    (pre : List String) (bad : String) (rest : List String) (e : String)
    (hpre : ∀ l ∈ pre, (jsToLowerCase l == "quit") = false ∧
        ∃ r, engine l = Except.ok r)
    (hbadq : (jsToLowerCase bad == "quit") = false)
    (hbad : engine bad = Except.error e) :
    (chatLoop engine (pre ++ bad :: rest)).outcome = LoopOutcome.errored e ∧
    (chatLoop engine (pre ++ bad :: rest)).prompts = pre.length + 1 ∧
    (chatLoop engine (pre ++ bad :: rest)).engineCalls = pre ++ [bad] ∧
    (chatLoop engine (pre ++ bad :: rest)).printed.length = pre.length ∧
    (mainSession engine (pre ++ bad :: rest)).2 = some ("Error: " ++ e) := by
  have main : (chatLoop engine (pre ++ bad :: rest)).outcome = LoopOutcome.errored e ∧
      (chatLoop engine (pre ++ bad :: rest)).prompts = pre.length + 1 ∧
      (chatLoop engine (pre ++ bad :: rest)).engineCalls = pre ++ [bad] ∧
      (chatLoop engine (pre ++ bad :: rest)).printed.length = pre.length := by
    induction pre with
    | nil =>
        simp [chatLoop, hbadq, hbad]
    | cons l pre ih =>
        obtain ⟨hlq, r, hr⟩ := hpre l (List.mem_cons_self l pre)
        obtain ⟨i1, i2, i3, i4⟩ := ih (fun l' hl' => hpre l' (List.mem_cons_of_mem _ hl'))
        refine ⟨?_, ?_, ?_, ?_⟩
        · simpa [chatLoop, hlq, hr] using i1
        · simp [chatLoop, hlq, hr, i2]
          omega
        · simp [chatLoop, hlq, hr, i3]
        · simp [chatLoop, hlq, hr, i4]
  obtain ⟨h1, h2, h3, h4⟩ := main
  refine ⟨h1, h2, h3, h4, ?_⟩
  simp [mainSession, h1]

/-- Witness for C5 (amended) at a concrete failing session. -/
theorem chatLoop_gateway_error_aborts_witness :
    (chatLoop failingEngine ["first", "boom"]).outcome =
        LoopOutcome.errored "Failed to invoke Bedrock model: timeout" ∧
    (chatLoop failingEngine ["first", "boom"]).prompts = 2 ∧
    (chatLoop failingEngine ["first", "boom"]).engineCalls = ["first", "boom"] ∧
    (chatLoop failingEngine ["first", "boom"]).printed.length = 1 ∧
    (mainSession failingEngine ["first", "boom"]).2 =
        some ("Error: " ++ "Failed to invoke Bedrock model: timeout") :=
  chatLoop_gateway_error_aborts failingEngine ["first"] "boom" []
    "Failed to invoke Bedrock model: timeout"
    (by
      intro l hl
      simp at hl
      subst hl
      exact ⟨by decide, "answer to first", rfl⟩)
    (by decide) rfl

end MCPClient
